import Mathlib

/-!
Shallow embedding of `subdivided_triangulated_cube_part_1_start.py`, a Blender
scripting file.  The script manipulates the host application's scene database
through the `bpy` object model; we embed the host as an explicit state record
(`HostState`) together with a trace of the host calls the script issues, and
each Python function as a Lean state transformer translated line by line from
the source.  Host-side semantics that the repository itself does not define
(the effect of a purge call on the orphan count, the naming of a fresh world
data block, the set of attributes the `bpy` module exports, the node created
by `nodes.new`) are modelled in the primitive operations, each marked by a
comment.  Frame numbers and property values are embedded as rationals, since
Python computes them with exact small decimals here (`loop_length / 2`).
-/

namespace GeoCube

/-- A host call issued by the script, recorded in the trace.
`orphansPurge l k r` is `bpy.ops.outliner.orphans_purge(do_local_ids=l,
do_linked_ids=k, do_recursive=r)`; `orphansPurgeDefault` is the same operator
invoked with no arguments (the pre-3.0 form used by the script). -/
inductive HostCall where
  | orphansPurge (do_local_ids do_linked_ids do_recursive : Bool)
  | orphansPurgeDefault
  | editmodeToggle
  | selectAll (action : String)
  | deleteObjects
  | collectionsRemove (name : String)
  | worldsRemove (name : String)
  | worldNew
  | meshPrimitiveAdd (kind : String) (location : ℚ × ℚ × ℚ)
  deriving Repr, DecidableEq

/-- A scene object as the script observes it: name, interaction mode,
visibility and selection flags, transform, and the names of its modifiers. -/
structure SceneObject where
  name : String
  mode : String
  hidden : Bool
  hide_select : Bool
  hide_viewport : Bool
  selected : Bool
  location : ℚ × ℚ × ℚ
  scale : ℚ × ℚ × ℚ
  modifiers : List String
  deriving Repr, DecidableEq

/-- The host application's state as far as the script touches it.
`orphanCount` abstracts the number of orphan (unreferenced) data blocks in the
scene database; `currentTime` is the value `time.time()` would return;
`printed` collects the script's standard output; `trace` records the host
calls issued so far. -/
structure HostState where
  version : Nat × Nat × Nat
  objects : List SceneObject
  activeObject : Option String
  collections : List String
  worlds : List String
  sceneWorld : Option String
  orphanCount : Nat
  clipboard : String
  rngSeed : Option ℚ
  currentTime : ℚ
  printed : List String
  frame_start : Nat
  frame_end : Nat
  frame_current : Nat
  fps : Nat
  worldHasBackgroundNode : Bool
  worldBackground : ℚ × ℚ × ℚ × ℚ
  trace : List HostCall
  deriving Repr, DecidableEq

/-- Lexicographic comparison of Blender version triples:
`bpy.app.version >= (3, 0, 0)`. -/
def versionGE (v w : Nat × Nat × Nat) : Bool :=
  decide (w.1 < v.1) ||
    (decide (v.1 = w.1) &&
      (decide (w.2.1 < v.2.1) ||
        (decide (v.2.1 = w.2.1) && decide (w.2.2 ≤ v.2.2))))

/-- One `bpy.ops.outliner.orphans_purge()` call (no arguments), as issued by
the pre-3.0 branch.  Host semantics modelled here: the operator removes the
directly unreferenced data blocks — which may leave blocks that only they
referenced as new orphans, so the count drops by at least one but need not
reach zero — and reports `CANCELLED` exactly when there was nothing to purge.
We model one call as decrementing the orphan count.  The returned string is
the element `result.pop()` extracts from the operator's result set. -/
def purgeOnceOld (s : HostState) : String × HostState :=
  if s.orphanCount = 0 then
    ("CANCELLED", { s with trace := s.trace ++ [HostCall.orphansPurgeDefault] })
  else
    ("FINISHED",
      { s with
        orphanCount := s.orphanCount - 1
        trace := s.trace ++ [HostCall.orphansPurgeDefault] })

/-- The pre-3.0 recursion of `purge_orphans`, written with a fuel bound:
`result = bpy.ops.outliner.orphans_purge(); if result.pop() != "CANCELLED":
purge_orphans()`.  Each non-`CANCELLED` call strictly decreases the modelled
orphan count, so fuel `orphanCount + 1` always suffices and the fuel-zero
fallback is unreachable (proved below). -/
def purgeLoopFuel : Nat → HostState → HostState
  | 0, s => s
  | fuel + 1, s =>
    let r := purgeOnceOld s
    if r.1 ≠ "CANCELLED" then purgeLoopFuel fuel r.2 else r.2

/-- `purge_orphans()`: on Blender 3.0+ a single purge call with
`do_local_ids=True, do_linked_ids=True, do_recursive=True` (host semantics
modelled from the spec glossary: a recursive purge removes all unreferenced
data blocks, so the orphan count becomes zero); on older versions the
recursive purge-until-`CANCELLED` loop. -/
def purge_orphans (s : HostState) : HostState :=
  if versionGE s.version (3, 0, 0) then
    { s with
      orphanCount := 0
      trace := s.trace ++ [HostCall.orphansPurge true true true] }
  else
    purgeLoopFuel (s.orphanCount + 1) s

/-- Pure counting model of the pre-3.0 recursion, for the termination claim:
`f` is an arbitrary host behaviour giving the orphan count left by one
non-cancelled purge call, and the returned list is the sequence of operator
results observed, one per purge call; the loop recurses exactly after a
non-`CANCELLED` result.  Fuel-zero returns `[]`, marking non-termination
within the bound. -/
def purgeLoopResultsFuel (f : Nat → Nat) : Nat → Nat → List String
  | 0, _ => []
  | fuel + 1, n =>
    if n = 0 then ["CANCELLED"]
    else "FINISHED" :: purgeLoopResultsFuel f fuel (f n)

/-- Name lookup in the scene's object list. -/
def lookupObject (s : HostState) (n : String) : Option SceneObject :=
  s.objects.find? (fun o => o.name == n)

/-- `active_object()`: returns `bpy.context.active_object` (possibly none). -/
def active_object (s : HostState) : Option SceneObject :=
  s.activeObject.bind (lookupObject s)

/-- The guard `bpy.context.active_object and bpy.context.active_object.mode ==
"EDIT"` at the top of `clean_scene`. -/
def activeInEditMode (s : HostState) : Bool :=
  match active_object s with
  | some o => o.mode == "EDIT"
  | none => false

/-- `bpy.ops.object.editmode_toggle()`: toggles the active object between
Edit Mode and Object Mode. -/
def editmode_toggle (s : HostState) : HostState :=
  { s with
    objects := s.objects.map (fun o =>
      if s.activeObject = some o.name then
        { o with mode := if o.mode = "EDIT" then "OBJECT" else "EDIT" }
      else o)
    trace := s.trace ++ [HostCall.editmodeToggle] }

/-- The unhide loop of `clean_scene`: `obj.hide_set(False); obj.hide_select =
False; obj.hide_viewport = False` for every object. -/
def unhideAll (s : HostState) : HostState :=
  { s with
    objects := s.objects.map (fun o =>
      { o with hidden := false, hide_select := false, hide_viewport := false }) }

/-- `bpy.ops.object.select_all(action="SELECT")`: selects every object. -/
def select_all_select (s : HostState) : HostState :=
  { s with
    objects := s.objects.map (fun o => { o with selected := true })
    trace := s.trace ++ [HostCall.selectAll "SELECT"] }

/-- `bpy.ops.object.delete()`: removes the selected objects; the active
object reference survives only if its object does. -/
def deleteSelected (s : HostState) : HostState :=
  let remaining := s.objects.filter (fun o => !o.selected)
  { s with
    objects := remaining
    activeObject :=
      match s.activeObject with
      | some n => if remaining.any (fun o => o.name == n) then some n else none
      | none => none
    trace := s.trace ++ [HostCall.deleteObjects] }

/-- The accumulated effect of removing each listed name from a name list, as
the removal loops of `clean_scene` do. -/
def removeAllNamed (names cur : List String) : List String :=
  names.foldl (fun acc n => acc.filter (fun c => decide (c ≠ n))) cur

/-- The collection-removal loop: `bpy.data.collections.remove(...)` once per
collection name in the snapshot `collection_names`. -/
def removeCollections (names : List String) (s : HostState) : HostState :=
  { s with
    collections := removeAllNamed names s.collections
    trace := s.trace ++ names.map HostCall.collectionsRemove }

/-- The world-removal loop: `bpy.data.worlds.remove(...)` once per world name
in the snapshot `world_names`. -/
def removeWorlds (names : List String) (s : HostState) : HostState :=
  { s with
    worlds := removeAllNamed names s.worlds
    trace := s.trace ++ names.map HostCall.worldsRemove }

/-- Host naming of the fresh data block created by `bpy.ops.world.new()`
(modelled): base name "World", numeric suffix when that name is taken. -/
def freshWorldName (worlds : List String) : String :=
  if "World" ∈ worlds then "World.001" else "World"

/-- `bpy.ops.world.new()`: creates one new world data block. -/
def world_new (s : HostState) : HostState :=
  { s with
    worlds := s.worlds ++ [freshWorldName s.worlds]
    trace := s.trace ++ [HostCall.worldNew] }

/-- `bpy.context.scene.world = bpy.data.worlds["World"]`; the lookup succeeds
whenever a world named "World" exists (always the case right after
`world_new` ran on an empty world list). -/
def assignSceneWorld (s : HostState) : HostState :=
  { s with
    sceneWorld := if "World" ∈ s.worlds then some "World" else s.sceneWorld }

/-- `clean_scene()`, translated statement by statement from the source. -/
def clean_scene (s : HostState) : HostState :=
  let s1 := if activeInEditMode s then editmode_toggle s else s
  let s2 := unhideAll s1
  let s3 := select_all_select s2
  let s4 := deleteSelected s3
  let s5 := removeCollections s4.collections s4
  let s6 := removeWorlds s5.worlds s5
  let s7 := world_new s6
  let s8 := assignSceneWorld s7
  purge_orphans s8

/-- `time_seed()`: seeds the random generator from `time.time()`, prints the
seed, and copies its string form to the clipboard. -/
def time_seed (s : HostState) : ℚ × HostState :=
  let seed := s.currentTime
  (seed,
    { s with
      printed := s.printed ++ ["seed: " ++ toString seed]
      rngSeed := some seed
      clipboard := toString seed })

/-- `set_scene_props(fps, frame_count)`. -/
def set_scene_props (fps frame_count : Nat) (s : HostState) : HostState :=
  let s1 := { s with frame_end := frame_count }
  let s2 :=
    if s1.worldHasBackgroundNode then
      { s1 with worldBackground := (0, 0, 0, 1) }
    else s1
  let s3 := { s2 with fps := fps }
  { s3 with frame_current := 1, frame_start := 1 }

/-- `scene_setup()`: the local `seed` is hard-coded to `0`, so the Python
truthiness test `if seed:` decides the branch. -/
def scene_setup (s : HostState) : HostState :=
  let fps := 30
  let loop_seconds := 12
  let frame_count := fps * loop_seconds
  let seed : Int := 0
  let s1 := if seed ≠ 0 then { s with rngSeed := some (seed : ℚ) } else (time_seed s).2
  let s2 := clean_scene s1
  set_scene_props fps frame_count s2

/-- `create_centerpiece()`: the body is `pass`. -/
def create_centerpiece (s : HostState) : HostState := s

/-- `main()`: `scene_setup(); create_centerpiece()`. -/
def main (s : HostState) : HostState :=
  create_centerpiece (scene_setup s)

/-- A geometry node: identity, type, and the host-determined input and output
socket names. -/
structure Node where
  id : Nat
  type_name : String
  inputs : List String
  outputs : List String
  deriving Repr, DecidableEq

/-- A link between an output socket of one node and an input socket of
another. -/
structure NodeLink where
  fromNode : Nat
  fromSocket : String
  toNode : Nat
  toSocket : String
  deriving Repr, DecidableEq

/-- A node tree: the nodes created so far (with a fresh-id counter) and the
links between their sockets. -/
structure NodeTree where
  nextId : Nat
  nodes : List Node
  links : List NodeLink
  deriving Repr, DecidableEq

/-- The host call `node_tree.nodes.new(type=type_name)` (modelled): appends
one fresh node of the given type, whose sockets are the host-determined
sockets for that type (`hostSockets`), and returns it. -/
def nodesNew (hostSockets : String → List String × List String)
    (nt : NodeTree) (type_name : String) : Node × NodeTree :=
  let node : Node :=
    { id := nt.nextId
      type_name := type_name
      inputs := (hostSockets type_name).1
      outputs := (hostSockets type_name).2 }
  (node, { nt with nextId := nt.nextId + 1, nodes := nt.nodes ++ [node] })

/-- `create_node(node_tree, type_name)`: `node_obj =
node_tree.nodes.new(type=type_name); return node_obj`. -/
def create_node (hostSockets : String → List String × List String)
    (node_tree : NodeTree) (type_name : String) : Node × NodeTree :=
  let node_obj := nodesNew hostSockets node_tree type_name
  node_obj

/-- The host call `node_tree.links.new(out_socket, in_socket)` (modelled):
appends one link between the two given sockets. -/
def linksNew (nt : NodeTree) (fromNode : Nat) (fromSocket : String)
    (toNode : Nat) (toSocket : String) : NodeTree :=
  { nt with
    links := nt.links ++
      [{ fromNode := fromNode, fromSocket := fromSocket,
         toNode := toNode, toSocket := toSocket }] }

/-- `create_link(node_tree, from_node, output_socket_name, to_node,
input_socket_name)`: `node_tree.links.new(from_node.outputs[...],
to_node.inputs[...])`.  The socket subscripts raise `KeyError` when the named
socket does not exist; both lookups happen before the host call. -/
def create_link (node_tree : NodeTree) (from_node : Node)
    (output_socket_name : String) (to_node : Node)
    (input_socket_name : String) : Except String NodeTree :=
  if output_socket_name ∈ from_node.outputs then
    if input_socket_name ∈ to_node.inputs then
      Except.ok
        (linksNew node_tree from_node.id output_socket_name
          to_node.id input_socket_name)
    else Except.error "KeyError"
  else Except.error "KeyError"

/-- The spec's description of `create_link`, for the refinement comparison:
create exactly one link, from the named output socket of the source node to
the named input socket of the destination node, changing nothing else in the
node tree. -/
def create_link_specSide (node_tree : NodeTree) (from_node : Node)
    (output_socket_name : String) (to_node : Node)
    (input_socket_name : String) : NodeTree :=
  { node_tree with
    links := node_tree.links ++
      [{ fromNode := from_node.id, fromSocket := output_socket_name,
         toNode := to_node.id, toSocket := input_socket_name }] }

/-- The primitive-add operators `bpy.ops.mesh.primitive_plane_add`,
`primitive_cube_add`, `primitive_uv_sphere_add` (modelled): create a new
object of the given kind at the given location, select it and make it
active. -/
def primitiveAdd (kind : String) (location : ℚ × ℚ × ℚ)
    (s : HostState) : HostState :=
  let obj : SceneObject :=
    { name := kind
      mode := "OBJECT"
      hidden := false
      hide_select := false
      hide_viewport := false
      selected := true
      location := location
      scale := (1, 1, 1)
      modifiers := [] }
  { s with
    objects := s.objects ++ [obj]
    activeObject := some kind
    trace := s.trace ++ [HostCall.meshPrimitiveAdd kind location] }

/-- `create_mesh(mesh_type, location)`: dispatches on the three supported
mesh types and returns `active_object()`; an unknown type falls through the
`if`/`elif` chain without any host call. -/
def create_mesh (mesh_type : String) (location : ℚ × ℚ × ℚ)
    (s : HostState) : Option SceneObject × HostState :=
  let s1 :=
    if mesh_type = "PLANE" then primitiveAdd "Plane" location s
    else if mesh_type = "CUBE" then primitiveAdd "Cube" location s
    else if mesh_type = "SPHERE" then primitiveAdd "Sphere" location s
    else s
  (active_object s1, s1)

/-- The attributes the top-level `bpy` module provides (modelled from the
host API): `Vector` is not among them (vector classes live in the separate
`mathutils` module). -/
def bpyModuleAttrs : List String :=
  ["app", "context", "data", "msgbus", "ops", "path", "props", "types",
   "utils"]

/-- Python attribute lookup on the `bpy` module. -/
def bpyHasAttr (a : String) : Bool := bpyModuleAttrs.contains a

/-- The error a `bpy.Vector` lookup raises. -/
def bpyVectorError : String :=
  "AttributeError: module bpy has no attribute Vector"

/-- Componentwise vector addition. -/
def vecAdd (a b : ℚ × ℚ × ℚ) : ℚ × ℚ × ℚ :=
  (a.1 + b.1, a.2.1 + b.2.1, a.2.2 + b.2.2)

/-- Componentwise vector multiplication. -/
def vecMul (a b : ℚ × ℚ × ℚ) : ℚ × ℚ × ℚ :=
  (a.1 * b.1, a.2.1 * b.2.1, a.2.2 * b.2.2)

/-- `move_object(obj, translation_vector)`: `obj.location +=
bpy.Vector(translation_vector)`.  The augmented assignment evaluates its
right-hand side before storing anything, and the attribute lookup
`bpy.Vector` happens there, so the failure precedes any mutation. -/
def move_object (obj : SceneObject) (translation_vector : ℚ × ℚ × ℚ) :
    Except String SceneObject :=
  if bpyHasAttr "Vector" then
    Except.ok { obj with location := vecAdd obj.location translation_vector }
  else Except.error bpyVectorError

/-- `scale_object(obj, scale_factor)`: `obj.scale *=
bpy.Vector(scale_factor)`, with the same failing `bpy.Vector` lookup on the
right-hand side. -/
def scale_object (obj : SceneObject) (scale_factor : ℚ × ℚ × ℚ) :
    Except String SceneObject :=
  if bpyHasAttr "Vector" then
    Except.ok { obj with scale := vecMul obj.scale scale_factor }
  else Except.error bpyVectorError

/-- An f-curve of the active object's action: the animated data path and the
extrapolation mode. -/
structure FCurve where
  data_path : String
  extrapolation : String
  deriving Repr, DecidableEq

/-- An object under animation: its current property values (an association
list, most recent first) and the keyframes recorded so far, in insertion
order, each `(data_path, frame, value)`. -/
structure AnimObject where
  props : List (String × ℚ)
  keyframes : List (String × ℚ × ℚ)
  deriving Repr, DecidableEq

/-- Python `setattr(obj, data_path, value)`. -/
def setAttrQ (o : AnimObject) (data_path : String) (v : ℚ) : AnimObject :=
  { o with props := (data_path, v) :: o.props }

/-- Python `getattr(obj, data_path)`: the most recently set value. -/
def getAttrQ (o : AnimObject) (data_path : String) : ℚ :=
  ((o.props.find? (fun p => p.1 == data_path)).map (fun p => p.2)).getD 0

/-- `obj.keyframe_insert(data_path, frame=...)`: records the property's
current value at the given frame. -/
def keyframe_insert (o : AnimObject) (data_path : String) (frame : ℚ) :
    AnimObject :=
  { o with
    keyframes := o.keyframes ++ [(data_path, frame, getAttrQ o data_path)] }

/-- `set_fcurve_extrapolation_to_linear()`: sets `fc.extrapolation =
"LINEAR"` for every f-curve of the active object's action. -/
def set_fcurve_extrapolation_to_linear (fcurves : List FCurve) :
    List FCurve :=
  fcurves.map (fun fc => { fc with extrapolation := "LINEAR" })

/-- `create_data_animation_loop(obj, data_path, start_value, mid_value,
start_frame, loop_length, linear_extrapolation)`, translated statement by
statement.  `activeFCurves` is the f-curve list of the active object's
action, which the final `set_fcurve_extrapolation_to_linear()` call
mutates. -/
def create_data_animation_loop (obj : AnimObject)
    (activeFCurves : List FCurve) (data_path : String)
    (start_value mid_value : ℚ) (start_frame loop_length : ℚ)
    (linear_extrapolation : Bool) : AnimObject × List FCurve :=
  let obj1 := setAttrQ obj data_path start_value
  let obj2 := keyframe_insert obj1 data_path start_frame
  let obj3 := setAttrQ obj2 data_path mid_value
  let mid_frame := start_frame + loop_length / 2
  let obj4 := keyframe_insert obj3 data_path mid_frame
  let obj5 := setAttrQ obj4 data_path start_value
  let end_frame := start_frame + loop_length
  let obj6 := keyframe_insert obj5 data_path end_frame
  (obj6,
    if linear_extrapolation then
      set_fcurve_extrapolation_to_linear activeFCurves
    else activeFCurves)

/-- A concrete scene for witnesses and counterexamples: Blender 3.6.2, two
objects (the cube active), one collection, one world. -/
def sampleScene : HostState :=
  { version := (3, 6, 2)
    objects :=
      [{ name := "Cube", mode := "OBJECT", hidden := false
         hide_select := false, hide_viewport := false, selected := false
         location := (0, 0, 0), scale := (1, 1, 1), modifiers := [] },
       { name := "Light", mode := "OBJECT", hidden := true
         hide_select := false, hide_viewport := true, selected := false
         location := (4, 1, 6), scale := (1, 1, 1), modifiers := [] }]
    activeObject := some "Cube"
    collections := ["Collection"]
    worlds := ["World"]
    sceneWorld := some "World"
    orphanCount := 2
    clipboard := ""
    rngSeed := none
    currentTime := 1700000000
    printed := []
    frame_start := 1
    frame_end := 250
    frame_current := 1
    fps := 24
    worldHasBackgroundNode := true
    worldBackground := (1, 1, 1, 1)
    trace := [] }

/-- A concrete pre-3.0 scene for the old purge branch. -/
def sampleOldScene : HostState :=
  { sampleScene with version := (2, 93, 4) }

/-- A concrete node tree for witnesses. -/
def sampleTree : NodeTree :=
  { nextId := 2
    nodes :=
      [{ id := 0, type_name := "NodeGroupInput", inputs := []
         outputs := ["Geometry"] },
       { id := 1, type_name := "NodeGroupOutput"
         inputs := ["Geometry"], outputs := [] }]
    links := [] }

/-- The first node of `sampleTree`. -/
def sampleFromNode : Node :=
  { id := 0, type_name := "NodeGroupInput", inputs := []
    outputs := ["Geometry"] }

/-- The second node of `sampleTree`. -/
def sampleToNode : Node :=
  { id := 1, type_name := "NodeGroupOutput", inputs := ["Geometry"]
    outputs := [] }

/-- A trivial socket table for witnesses. -/
def sampleSockets : String → List String × List String :=
  fun _ => (["Geometry"], ["Geometry"])

/-- A concrete animated object for witnesses. -/
def sampleAnimObject : AnimObject :=
  { props := [], keyframes := [] }

/-- A concrete f-curve list for witnesses. -/
def sampleFCurves : List FCurve :=
  [{ data_path := "inputs[4].default_value", extrapolation := "CONSTANT" }]

lemma purgeLoopFuel_spec (fuel : Nat) :
    ∀ s : HostState, s.orphanCount < fuel →
      (purgeLoopFuel fuel s).orphanCount = 0 ∧
      (∃ k, 0 < k ∧
        (purgeLoopFuel fuel s).trace =
          s.trace ++ List.replicate k HostCall.orphansPurgeDefault) ∧
      (purgeLoopFuel fuel s).objects = s.objects ∧
      (purgeLoopFuel fuel s).activeObject = s.activeObject ∧
      (purgeLoopFuel fuel s).collections = s.collections ∧
      (purgeLoopFuel fuel s).worlds = s.worlds ∧
      (purgeLoopFuel fuel s).sceneWorld = s.sceneWorld ∧
      (purgeLoopFuel fuel s).clipboard = s.clipboard ∧
      (purgeLoopFuel fuel s).rngSeed = s.rngSeed ∧
      (purgeLoopFuel fuel s).printed = s.printed := by
  induction fuel with
  | zero => intro s h; omega
  | succ fuel ih =>
    intro s h
    by_cases h0 : s.orphanCount = 0
    · refine ⟨?_, ⟨1, ?_, ?_⟩, ?_, ?_, ?_, ?_, ?_, ?_, ?_, ?_⟩ <;>
        simp [purgeLoopFuel, purgeOnceOld, h0]
    · have hlt : ({ s with
          orphanCount := s.orphanCount - 1
          trace := s.trace ++ [HostCall.orphansPurgeDefault] } :
            HostState).orphanCount < fuel := by
        simp only []
        omega
      obtain ⟨hcnt, ⟨k, hk, htr⟩, hobj, hact, hcol, hw, hsw, hcb, hrs, hpr⟩ :=
        ih _ hlt
      refine ⟨?_, ⟨k + 1, by omega, ?_⟩, ?_, ?_, ?_, ?_, ?_, ?_, ?_, ?_⟩ <;>
        simp only [purgeLoopFuel, purgeOnceOld, h0, if_false, ite_false,
          if_neg h0, ne_eq] <;>
        simp_all [List.replicate_succ, List.append_assoc]

lemma purgeLoopResultsFuel_spec (f : Nat → Nat)
    (hf : ∀ n, n ≠ 0 → f n < n) (fuel : Nat) :
    ∀ n, n < fuel →
      ∃ k, k ≤ n ∧
        purgeLoopResultsFuel f fuel n =
          List.replicate k "FINISHED" ++ ["CANCELLED"] := by
  induction fuel with
  | zero => intro n h; omega
  | succ fuel ih =>
    intro n h
    by_cases h0 : n = 0
    · exact ⟨0, by omega, by simp [purgeLoopResultsFuel, h0]⟩
    · have hfn : f n < n := hf n h0
      obtain ⟨k, hk, hrun⟩ := ih (f n) (by omega)
      refine ⟨k + 1, by omega, ?_⟩
      simp [purgeLoopResultsFuel, h0, hrun, List.replicate_succ]

lemma removeAllNamed_eq_nil (names : List String) :
    ∀ cur : List String, cur ⊆ names → removeAllNamed names cur = [] := by
  induction names with
  | nil =>
    intro cur h
    simpa [removeAllNamed] using List.subset_nil.mp h
  | cons n ns ih =>
    intro cur h
    have hsub : cur.filter (fun c => decide (c ≠ n)) ⊆ ns := by
      intro c hc
      have hmem := List.mem_filter.mp hc
      have hne : c ≠ n := by simpa using hmem.2
      have hcn : c = n ∨ c ∈ ns := List.mem_cons.mp (h hmem.1)
      rcases hcn with h1 | h2
      · exact absurd h1 hne
      · exact h2
    simpa [removeAllNamed] using ih _ hsub

lemma purge_orphans_fields (s : HostState) :
    (purge_orphans s).orphanCount = 0 ∧
    (purge_orphans s).objects = s.objects ∧
    (purge_orphans s).activeObject = s.activeObject ∧
    (purge_orphans s).collections = s.collections ∧
    (purge_orphans s).worlds = s.worlds ∧
    (purge_orphans s).sceneWorld = s.sceneWorld ∧
    (purge_orphans s).clipboard = s.clipboard ∧
    (purge_orphans s).rngSeed = s.rngSeed ∧
    (purge_orphans s).printed = s.printed := by
  by_cases hv : versionGE s.version (3, 0, 0) = true
  · rw [purge_orphans, if_pos hv]
    simp
  · rw [purge_orphans, if_neg hv]
    obtain ⟨hcnt, _, hobj, hact, hcol, hw, hsw, hcb, hrs, hpr⟩ :=
      purgeLoopFuel_spec (s.orphanCount + 1) s (by omega)
    exact ⟨hcnt, hobj, hact, hcol, hw, hsw, hcb, hrs, hpr⟩

lemma clean_scene_fields (s : HostState) :
    (clean_scene s).objects = [] ∧
    (clean_scene s).activeObject = none ∧
    (clean_scene s).collections = [] ∧
    (clean_scene s).worlds = ["World"] ∧
    (clean_scene s).sceneWorld = some "World" ∧
    (clean_scene s).orphanCount = 0 ∧
    (clean_scene s).clipboard = s.clipboard ∧
    (clean_scene s).rngSeed = s.rngSeed ∧
    (clean_scene s).printed = s.printed ∧
    (∃ t, clean_scene s = purge_orphans t) := by
  have hdel :
      ∀ u : HostState,
        (deleteSelected (select_all_select u)).objects = [] ∧
        (deleteSelected (select_all_select u)).activeObject = none := by
    intro u
    have hobj : (deleteSelected (select_all_select u)).objects = [] := by
      simp [deleteSelected, select_all_select, List.filter_eq_nil_iff]
    refine ⟨hobj, ?_⟩
    rcases hu : u.activeObject with _ | n <;>
      simp [deleteSelected, select_all_select, hu, List.filter_eq_nil_iff]
  set s1 := if activeInEditMode s then editmode_toggle s else s with hs1
  have hs1f : s1.collections = s.collections ∧ s1.worlds = s.worlds ∧
      s1.sceneWorld = s.sceneWorld ∧ s1.orphanCount = s.orphanCount ∧
      s1.clipboard = s.clipboard ∧ s1.rngSeed = s.rngSeed ∧
      s1.printed = s.printed := by
    rw [hs1]
    by_cases h : activeInEditMode s = true <;> simp [h, editmode_toggle]
  set s4 := deleteSelected (select_all_select (unhideAll s1)) with hs4
  have hs4obj : s4.objects = [] ∧ s4.activeObject = none := hdel (unhideAll s1)
  have hs4f : s4.collections = s.collections ∧ s4.worlds = s.worlds ∧
      s4.sceneWorld = s.sceneWorld ∧ s4.orphanCount = s.orphanCount ∧
      s4.clipboard = s.clipboard ∧ s4.rngSeed = s.rngSeed ∧
      s4.printed = s.printed := by
    rw [hs4]
    simpa [deleteSelected, select_all_select, unhideAll] using hs1f
  set s5 := removeCollections s4.collections s4 with hs5
  set s6 := removeWorlds s5.worlds s5 with hs6
  set s7 := world_new s6 with hs7
  set s8 := assignSceneWorld s7 with hs8
  have hcol5 : s5.collections = [] := by
    rw [hs5]
    exact removeAllNamed_eq_nil _ _ (List.Subset.refl _)
  have hw6 : s6.worlds = [] := by
    rw [hs6]
    exact removeAllNamed_eq_nil _ _ (List.Subset.refl _)
  have hw7 : s7.worlds = ["World"] := by
    rw [hs7]
    simp [world_new, hw6, freshWorldName]
  have h8obj : s8.objects = [] := by
    rw [hs8, hs7, hs6, hs5]
    simpa [assignSceneWorld, world_new, removeWorlds, removeCollections]
      using hs4obj.1
  have h8act : s8.activeObject = none := by
    rw [hs8, hs7, hs6, hs5]
    simpa [assignSceneWorld, world_new, removeWorlds, removeCollections]
      using hs4obj.2
  have h8col : s8.collections = [] := by
    rw [hs8, hs7, hs6]
    simpa [assignSceneWorld, world_new, removeWorlds] using hcol5
  have h8w : s8.worlds = ["World"] := by
    rw [hs8]
    simpa [assignSceneWorld] using hw7
  have h8sw : s8.sceneWorld = some "World" := by
    rw [hs8]
    simp [assignSceneWorld, hw7]
  have h8cb : s8.clipboard = s.clipboard := by
    rw [hs8, hs7, hs6, hs5]
    simpa [assignSceneWorld, world_new, removeWorlds, removeCollections]
      using hs4f.2.2.2.2.1
  have h8rs : s8.rngSeed = s.rngSeed := by
    rw [hs8, hs7, hs6, hs5]
    simpa [assignSceneWorld, world_new, removeWorlds, removeCollections]
      using hs4f.2.2.2.2.2.1
  have h8pr : s8.printed = s.printed := by
    rw [hs8, hs7, hs6, hs5]
    simpa [assignSceneWorld, world_new, removeWorlds, removeCollections]
      using hs4f.2.2.2.2.2.2
  have hclean : clean_scene s = purge_orphans s8 := by
    rw [hs8, hs7, hs6, hs5, hs4, hs1]
    rfl
  obtain ⟨pcnt, pobj, pact, pcol, pw, psw, pcb, prs, ppr⟩ :=
    purge_orphans_fields s8
  rw [hclean]
  exact ⟨by rw [pobj, h8obj], by rw [pact, h8act],
    by rw [pcol, h8col], by rw [pw, h8w],
    by rw [psw, h8sw], pcnt,
    by rw [pcb, h8cb], by rw [prs, h8rs],
    by rw [ppr, h8pr], ⟨s8, rfl⟩⟩

lemma set_scene_props_fields (fps frame_count : Nat) (u : HostState) :
    (set_scene_props fps frame_count u).objects = u.objects ∧
    (set_scene_props fps frame_count u).activeObject = u.activeObject ∧
    (set_scene_props fps frame_count u).rngSeed = u.rngSeed ∧
    (set_scene_props fps frame_count u).clipboard = u.clipboard ∧
    (set_scene_props fps frame_count u).printed = u.printed ∧
    (set_scene_props fps frame_count u).frame_end = frame_count ∧
    (set_scene_props fps frame_count u).fps = fps ∧
    (set_scene_props fps frame_count u).frame_start = 1 ∧
    (set_scene_props fps frame_count u).frame_current = 1 := by
  by_cases h : u.worldHasBackgroundNode = true <;>
    simp [set_scene_props, h]

lemma scene_setup_eq (s : HostState) :
    scene_setup s = set_scene_props 30 360 (clean_scene ((time_seed s).2)) := by
  rfl

lemma scene_setup_fields (s : HostState) :
    (scene_setup s).objects = [] ∧
    (scene_setup s).rngSeed = some s.currentTime ∧
    (scene_setup s).clipboard = toString s.currentTime ∧
    ("seed: " ++ toString s.currentTime) ∈ (scene_setup s).printed := by
  rw [scene_setup_eq]
  obtain ⟨ho, _, hrs, hcb, hpr, _, _, _, _⟩ :=
    set_scene_props_fields 30 360 (clean_scene ((time_seed s).2))
  obtain ⟨co, _, _, _, _, _, ccb, crs, cpr, _⟩ :=
    clean_scene_fields ((time_seed s).2)
  refine ⟨?_, ?_, ?_, ?_⟩
  · rw [ho, co]
  · rw [hrs, crs]; rfl
  · rw [hcb, ccb]; rfl
  · rw [hpr, cpr]; simp [time_seed]

/-- Claim C1 counterexample: running `main()` on a concrete scene leaves no
object at all in the scene — in particular no object carrying a Geometry
Nodes modifier, let alone one whose node tree subdivides and triangulates a
cube — because `create_centerpiece` is an empty placeholder. -/
theorem claim_C1_counterexample :
    (main sampleScene).objects = [] ∧
    ¬ ∃ o, o ∈ (main sampleScene).objects ∧ "GeometryNodes" ∈ o.modifiers := by
  have h : (main sampleScene).objects = [] := by rfl
  refine ⟨h, ?_⟩
  rintro ⟨o, ho, _⟩
  rw [h] at ho
  exact absurd ho (List.not_mem_nil o)

/-- Claim C1 (amended): `main()` equals `scene_setup()` alone — it cleans the
scene and configures scene properties — and after it returns the scene
contains no objects, hence no object carrying a Geometry Nodes modifier; the
cube graph the docstring describes is not built. -/
theorem claim_C1_main_only_sets_up_scene (s : HostState) :
    main s = scene_setup s ∧ (main s).objects = [] := by
  refine ⟨rfl, ?_⟩
  have h : main s = scene_setup s := rfl
  rw [h]
  exact (scene_setup_fields s).1

/-- Claim C2: `create_centerpiece()` is an empty placeholder: it performs no
host call (the trace is unchanged), returns the state unchanged, and
consequently the effect of `main()` equals the effect of `scene_setup()`
alone. -/
theorem claim_C2_create_centerpiece_is_noop (s : HostState) :
    create_centerpiece s = s ∧
    (create_centerpiece s).trace = s.trace ∧
    main s = scene_setup s :=
  ⟨rfl, rfl, rfl⟩

/-- Claim C3: `create_data_animation_loop` appends exactly three keyframes on
the given data path — `start_value` at `start_frame`, `mid_value` at
`start_frame + loop_length / 2`, and `start_value` again at `start_frame +
loop_length` — so the first and last keyframed values coincide, and when
`linear_extrapolation` is true every f-curve of the active object's action is
set to LINEAR extrapolation. -/
theorem claim_C3_animation_loop (obj : AnimObject) (fcs : List FCurve)
    (dp : String) (sv mv sf ll : ℚ) (lin : Bool) :
    (create_data_animation_loop obj fcs dp sv mv sf ll lin).1.keyframes =
      obj.keyframes ++
        [(dp, sf, sv), (dp, sf + ll / 2, mv), (dp, sf + ll, sv)] ∧
    (lin = true →
      ∀ fc ∈ (create_data_animation_loop obj fcs dp sv mv sf ll lin).2,
        fc.extrapolation = "LINEAR") := by
  constructor
  · simp [create_data_animation_loop, keyframe_insert, setAttrQ, getAttrQ]
  · intro hl fc hfc
    rw [create_data_animation_loop] at hfc
    simp only [hl, if_true, set_fcurve_extrapolation_to_linear,
      List.mem_map] at hfc
    obtain ⟨x, _, hx⟩ := hfc
    rw [← hx]

/-- Witness for claim C3 at a concrete input. -/
theorem claim_C3_witness :
    (create_data_animation_loop sampleAnimObject sampleFCurves "value"
        1 5 1 90 true).1.keyframes =
      sampleAnimObject.keyframes ++
        [("value", 1, 1), ("value", 1 + 90 / 2, 5), ("value", 1 + 90, 1)] ∧
    (∀ fc ∈ (create_data_animation_loop sampleAnimObject sampleFCurves
        "value" 1 5 1 90 true).2, fc.extrapolation = "LINEAR") :=
  ⟨(claim_C3_animation_loop sampleAnimObject sampleFCurves "value"
      1 5 1 90 true).1,
   (claim_C3_animation_loop sampleAnimObject sampleFCurves "value"
      1 5 1 90 true).2 rfl⟩

/-- Claim C4: on host versions at or above 3.0.0 `purge_orphans` issues
exactly one purge call, with `do_local_ids`, `do_linked_ids` and
`do_recursive` all true; on versions below 3.0.0 it purges and recurses again
exactly while the result is not CANCELLED, and — assuming every non-cancelled
purge strictly decreases the orphan count — the recursion terminates, within
`n + 1` purge calls from `n` orphans, its observed results being finitely
many FINISHED followed by one final CANCELLED. -/
theorem claim_C4_purge_structure_and_termination (s : HostState)
    (f : Nat → Nat) (hf : ∀ n, n ≠ 0 → f n < n) (n : Nat) :
    (versionGE s.version (3, 0, 0) = true →
      purge_orphans s =
        { s with
          orphanCount := 0
          trace := s.trace ++ [HostCall.orphansPurge true true true] }) ∧
    (∃ k, k ≤ n ∧
      purgeLoopResultsFuel f (n + 1) n =
        List.replicate k "FINISHED" ++ ["CANCELLED"]) := by
  refine ⟨fun hv => ?_, purgeLoopResultsFuel_spec f hf (n + 1) n (by omega)⟩
  rw [purge_orphans, if_pos hv]

/-- Witness for claim C4 at concrete inputs: a 3.6.2 scene for the new
branch, and the step function that removes one orphan per call, started from
three orphans, for the old branch. -/
theorem claim_C4_witness :
    purge_orphans sampleScene =
      { sampleScene with
        orphanCount := 0
        trace := sampleScene.trace ++
          [HostCall.orphansPurge true true true] } ∧
    (∃ k, k ≤ 3 ∧
      purgeLoopResultsFuel (fun m => m - 1) 4 3 =
        List.replicate k "FINISHED" ++ ["CANCELLED"]) :=
  ⟨(claim_C4_purge_structure_and_termination sampleScene (fun m => m - 1)
      (fun m hm => Nat.sub_lt (Nat.pos_of_ne_zero hm) Nat.one_pos) 3).1
      (by decide),
   (claim_C4_purge_structure_and_termination sampleScene (fun m => m - 1)
      (fun m hm => Nat.sub_lt (Nat.pos_of_ne_zero hm) Nat.one_pos) 3).2⟩

/-- Claim C5: after `purge_orphans()` returns, no orphan data blocks remain
in the scene database, whichever version branch ran. -/
theorem claim_C5_purge_postcondition (s : HostState) :
    (purge_orphans s).orphanCount = 0 :=
  (purge_orphans_fields s).1

/-- Claim C6: after `clean_scene()` returns, the active object is not in Edit
Mode, the scene contains no objects and no collections, the pre-existing
worlds were removed and replaced by a single fresh world named "World" set as
the scene world, and `purge_orphans` has been run (it is the final step, and
no orphans remain). -/
theorem claim_C6_clean_scene_postcondition (s : HostState) :
    activeInEditMode (clean_scene s) = false ∧
    (clean_scene s).objects = [] ∧
    (clean_scene s).collections = [] ∧
    (clean_scene s).worlds = ["World"] ∧
    (clean_scene s).sceneWorld = some "World" ∧
    (clean_scene s).orphanCount = 0 ∧
    (∃ t, clean_scene s = purge_orphans t) := by
  obtain ⟨ho, ha, hc, hw, hsw, hcnt, _, _, _, hpu⟩ := clean_scene_fields s
  refine ⟨?_, ho, hc, hw, hsw, hcnt, hpu⟩
  simp [activeInEditMode, active_object, ha]

/-- Claim C7: `create_node(node_tree, type_name)` equals the single host call
`node_tree.nodes.new(type=type_name)` — it returns exactly the node that call
appends and changes nothing else — and `create_link` (when the named sockets
exist) adds exactly one link, from the named output socket of the source node
to the named input socket of the destination node, changing nothing else in
the node tree. -/
theorem claim_C7_node_helpers_refine_host_calls
    (hostSockets : String → List String × List String)
    (nt : NodeTree) (type_name : String) (from_node to_node : Node)
    (output_socket_name input_socket_name : String) :
    create_node hostSockets nt type_name =
      nodesNew hostSockets nt type_name ∧
    (create_node hostSockets nt type_name).2.nodes =
      nt.nodes ++ [(create_node hostSockets nt type_name).1] ∧
    (create_node hostSockets nt type_name).2.links = nt.links ∧
    (create_node hostSockets nt type_name).1.type_name = type_name ∧
    (output_socket_name ∈ from_node.outputs →
      input_socket_name ∈ to_node.inputs →
      create_link nt from_node output_socket_name to_node
          input_socket_name =
        Except.ok
          (create_link_specSide nt from_node output_socket_name to_node
            input_socket_name) ∧
      (create_link_specSide nt from_node output_socket_name to_node
          input_socket_name).nodes = nt.nodes ∧
      (create_link_specSide nt from_node output_socket_name to_node
          input_socket_name).links =
        nt.links ++
          [{ fromNode := from_node.id, fromSocket := output_socket_name,
             toNode := to_node.id, toSocket := input_socket_name }]) := by
  refine ⟨rfl, rfl, rfl, rfl, fun ho hi => ⟨?_, rfl, rfl⟩⟩
  rw [create_link, if_pos ho, if_pos hi]
  rfl

/-- Witness for claim C7 at a concrete node tree. -/
theorem claim_C7_witness :
    create_node sampleSockets sampleTree "GeometryNodeSubdivideMesh" =
      nodesNew sampleSockets sampleTree "GeometryNodeSubdivideMesh" ∧
    create_link sampleTree sampleFromNode "Geometry" sampleToNode
        "Geometry" =
      Except.ok
        (create_link_specSide sampleTree sampleFromNode "Geometry"
          sampleToNode "Geometry") :=
  ⟨(claim_C7_node_helpers_refine_host_calls sampleSockets sampleTree
      "GeometryNodeSubdivideMesh" sampleFromNode sampleToNode "Geometry"
      "Geometry").1,
   ((claim_C7_node_helpers_refine_host_calls sampleSockets sampleTree
      "GeometryNodeSubdivideMesh" sampleFromNode sampleToNode "Geometry"
      "Geometry").2.2.2.2 (by decide) (by decide)).1⟩

/-- Claim C8: for every object and translation or scale vector, `move_object`
and `scale_object` fail with an attribute-lookup error — `bpy.Vector` is not
an attribute the host's `bpy` module provides — and the failure happens while
evaluating the right-hand side, before any store to the object's location or
scale. -/
theorem claim_C8_move_scale_attribute_error (obj : SceneObject)
    (translation_vector scale_factor : ℚ × ℚ × ℚ) :
    move_object obj translation_vector = Except.error bpyVectorError ∧
    scale_object obj scale_factor = Except.error bpyVectorError := by
  have hv : bpyHasAttr "Vector" = false := by decide
  constructor
  · simp [move_object, hv]
  · simp [scale_object, hv]

/-- Claim C9: for every `mesh_type` outside PLANE, CUBE and SPHERE,
`create_mesh` performs no host call and raises no error: the state is
unchanged and the returned object is whatever `active_object()` already gave
(possibly none). -/
theorem claim_C9_create_mesh_unknown_type (mesh_type : String)
    (location : ℚ × ℚ × ℚ) (s : HostState)
    (h : mesh_type ∉ (["PLANE", "CUBE", "SPHERE"] : List String)) :
    create_mesh mesh_type location s = (active_object s, s) := by
  have h1 : ¬ mesh_type = "PLANE" := fun e => h (by simp [e])
  have h2 : ¬ mesh_type = "CUBE" := fun e => h (by simp [e])
  have h3 : ¬ mesh_type = "SPHERE" := fun e => h (by simp [e])
  simp [create_mesh, h1, h2, h3]

/-- Witness for claim C9 at a concrete unsupported mesh type. -/
theorem claim_C9_witness :
    "TORUS" ∉ (["PLANE", "CUBE", "SPHERE"] : List String) ∧
    create_mesh "TORUS" (0, 0, 0) sampleScene =
      (active_object sampleScene, sampleScene) :=
  ⟨by decide,
   claim_C9_create_mesh_unknown_type "TORUS" (0, 0, 0) sampleScene
     (by decide)⟩

/-- Claim C10: the fixed-seed branch of `scene_setup` is unreachable — `seed`
is hard-coded to 0, which is falsy — so every call takes the `time_seed()`
branch: the generator is seeded from the current time, the seed is printed,
and the clipboard is overwritten with the string form of that seed. -/
theorem claim_C10_scene_setup_time_seed_branch (s : HostState) :
    scene_setup s = set_scene_props 30 360 (clean_scene ((time_seed s).2)) ∧
    (scene_setup s).rngSeed = some s.currentTime ∧
    (scene_setup s).clipboard = toString s.currentTime ∧
    ("seed: " ++ toString s.currentTime) ∈ (scene_setup s).printed :=
  ⟨scene_setup_eq s, (scene_setup_fields s).2.1,
   (scene_setup_fields s).2.2.1, (scene_setup_fields s).2.2.2⟩

end GeoCube
